import Mathlib

/-
Shallow embedding of src/intermediate_config.rs (mainframer).

The generic document tree is the Yaml enum of the yaml_rust crate; the
translator parse_config_from_str walks fixed paths of the first parsed
document and builds an IntermediateConfig or returns the first error.
File reading and the text-level YAML scanner are external collaborators,
so parse_config_from_str and from_file are parameterized by their
results; a Rust panic is modelled as the Option value none.
-/

namespace Mainframer

/-- The generic tree node type, mirroring the yaml_rust Yaml enum:
Real holds the raw float text, hash is an ordered mapping. -/
inductive Yaml where
  | real (s : String)
  | integer (i : Int)
  | string (s : String)
  | boolean (b : Bool)
  | array (elems : List Yaml)
  | hash (entries : List (Yaml × Yaml))
  | aliasNode (anchor : Nat)
  | null
  | badValue
deriving Repr

/-- Result struct IntermediateRemoteMachine. -/
structure IntermediateRemoteMachine where
  host : Option String
deriving DecidableEq, Repr

/-- Result struct IntermediateCompression. -/
structure IntermediateCompression where
  «local» : Option Int
  remote : Option Int
deriving DecidableEq, Repr

/-- Result struct IntermediateConfig. -/
structure IntermediateConfig where
  remote_machine : Option IntermediateRemoteMachine
  compression : Option IntermediateCompression
deriving DecidableEq, Repr

/-- Lookup of a string key in a mapping, mirroring LinkedHashMap get with
the key Yaml.string idx: structural equality with a string key holds
exactly for an equal string key. Returns none when the key is absent. -/
def hashGetStr : List (Yaml × Yaml) → String → Option Yaml
  | [], _ => none
  | (k, v) :: rest, idx =>
    match k with
    | .string s => if s = idx then some v else hashGetStr rest idx
    | _ => hashGetStr rest idx

/-- The Index impl of yaml_rust for string indices: indexing a non-hash
node, or a hash without the key, yields badValue. -/
def indexStr (yaml : Yaml) (idx : String) : Yaml :=
  match yaml with
  | .hash h =>
    match hashGetStr h idx with
    | some v => v
    | none => .badValue
  | _ => .badValue

/-- A run of n space characters. -/
def spaces (n : Nat) : String :=
  String.mk (List.replicate n (Char.ofNat 32))

/-- One character of the Rust Debug escaping for strings. -/
def escapeDebugChar (c : Char) : String :=
  if c = Char.ofNat 34 then "\\\""
  else if c = Char.ofNat 92 then "\\\\"
  else if c = Char.ofNat 10 then "\\n"
  else if c = Char.ofNat 13 then "\\r"
  else if c = Char.ofNat 9 then "\\t"
  else String.mk [c]

/-- Rust Debug rendering of a string: quoted and escaped. -/
def debugQuote (s : String) : String :=
  "\"" ++ String.join (s.data.map escapeDebugChar) ++ "\""

mutual

/-- The alternate (pretty) Debug rendering the derived Debug impl of the
Yaml enum produces under the format spec used by the source, with ind the
indentation column of the first character. Scalar variants render as the
variant name, an opening parenthesis, the field on its own line indented
four further columns, and a closing parenthesis at ind; Null and BadValue
render as bare names; arrays and hashes nest, each level four columns
deeper, without trailing commas (the rendering the tests of the source
pin down). -/
def debugRender (ind : Nat) : Yaml → String
  | .real s =>
    "Real(\n" ++ spaces (ind + 4) ++ debugQuote s ++ "\n" ++ spaces ind ++ ")"
  | .integer i =>
    "Integer(\n" ++ spaces (ind + 4) ++ toString i ++ "\n" ++ spaces ind ++ ")"
  | .string s =>
    "String(\n" ++ spaces (ind + 4) ++ debugQuote s ++ "\n" ++ spaces ind ++ ")"
  | .boolean b =>
    "Boolean(\n" ++ spaces (ind + 4) ++ (if b then "true" else "false") ++ "\n" ++ spaces ind ++ ")"
  | .array [] =>
    "Array(\n" ++ spaces (ind + 4) ++ "[]" ++ "\n" ++ spaces ind ++ ")"
  | .array (x :: xs) =>
    "Array(\n" ++ spaces (ind + 4) ++ "[\n" ++ renderArrayItems (ind + 8) (x :: xs)
      ++ "\n" ++ spaces (ind + 4) ++ "]\n" ++ spaces ind ++ ")"
  | .hash [] =>
    "Hash(\n" ++ spaces (ind + 4) ++ "\x7b\x7d" ++ "\n" ++ spaces ind ++ ")"
  | .hash (kv :: kvs) =>
    "Hash(\n" ++ spaces (ind + 4) ++ "\x7b\n" ++ renderHashItems (ind + 8) (kv :: kvs)
      ++ "\n" ++ spaces (ind + 4) ++ "\x7d\n" ++ spaces ind ++ ")"
  | .aliasNode anchor =>
    "Alias(\n" ++ spaces (ind + 4) ++ toString anchor ++ "\n" ++ spaces ind ++ ")"
  | .null => "Null"
  | .badValue => "BadValue"
termination_by y => sizeOf y

/-- Comma-and-newline separated array elements, each on a line at ind. -/
def renderArrayItems (ind : Nat) : List Yaml → String
  | [] => ""
  | [x] => spaces ind ++ debugRender ind x
  | x :: y :: rest =>
    spaces ind ++ debugRender ind x ++ ",\n" ++ renderArrayItems ind (y :: rest)
termination_by xs => sizeOf xs

/-- Comma-and-newline separated key-value pairs, each on a line at ind. -/
def renderHashItems (ind : Nat) : List (Yaml × Yaml) → String
  | [] => ""
  | [(k, v)] => spaces ind ++ debugRender ind k ++ ": " ++ debugRender ind v
  | (k, v) :: kv :: rest =>
    spaces ind ++ debugRender ind k ++ ": " ++ debugRender ind v ++ ",\n"
      ++ renderHashItems ind (kv :: rest)
termination_by kvs => sizeOf kvs

end

/-- The host block of the remoteMachine arm (lines 53 to 60 of the
source): given the remoteMachine hash, look up the host key; a string
yields some, an explicit null yields none, an absent key yields none,
and any other node kind is the error
remoteMachine.host must be a string. -/
def parseRemoteMachine (remote_machine : List (Yaml × Yaml)) :
    Except String IntermediateRemoteMachine :=
  match hashGetStr remote_machine "host" with
  | some host =>
    match host with
    | .string h => .ok ⟨some h⟩
    | .null => .ok ⟨none⟩
    | _ => .error "remoteMachine.host must be a string"
  | none => .ok ⟨none⟩

/-- One compression sub-field block (lines 72 to 83 and their verbatim
repetition for remote at lines 85 to 96 of the source): an integer in
1 to 9 inclusive yields some, null or badValue yields none, an absent
key yields none, an out-of-range integer or any other node kind is an
error naming compression.fieldName; the integer case echoes the raw
number and the wrong-kind case echoes the Debug rendering of the node. -/
def compressionField (fieldName : String) : Option Yaml → Except String (Option Int)
  | some v =>
    match v with
    | .integer i =>
      if i ≥ 1 ∧ i ≤ 9 then .ok (some i)
      else .error ("\x27compression." ++ fieldName
        ++ "\x27 must be a positive integer from 1 to 9, but was " ++ toString i)
    | .null => .ok none
    | .badValue => .ok none
    | somethingElse =>
      .error ("\x27compression." ++ fieldName
        ++ "\x27 must be a positive integer from 1 to 9, but was " ++ debugRender 0 somethingElse)
  | none => .ok none

/-- The body of the compression arm (lines 72 to 101 of the source):
validate local, then remote, then build IntermediateCompression; a Rust
early return Err becomes error propagation. -/
def parseCompression (compression : List (Yaml × Yaml)) :
    Except String IntermediateCompression :=
  match compressionField "local" (hashGetStr compression "local") with
  | .error e => .error e
  | .ok localLevel =>
    match compressionField "remote" (hashGetStr compression "remote") with
    | .error e => .error e
    | .ok remoteLevel => .ok ⟨localLevel, remoteLevel⟩

/-- The remoteMachine match (lines 51 to 68 of the source): a hash runs
the host block, null and badValue give none, and anything else is the
shape error echoing the Debug rendering of the node. -/
def remoteMachineSection (yaml : Yaml) :
    Except String (Option IntermediateRemoteMachine) :=
  match indexStr yaml "remoteMachine" with
  | .hash remote_machine =>
    match parseRemoteMachine remote_machine with
    | .error e => .error e
    | .ok rm => .ok (some rm)
  | .null => .ok none
  | .badValue => .ok none
  | somethingElse =>
    .error ("\x27remoteMachine\x27 must be an object, but was " ++ debugRender 0 somethingElse)

/-- The compression match (lines 70 to 105 of the source): a hash runs
the two sub-field blocks, null and badValue give none, and anything else
is the shape error, which unlike the remoteMachine one does not echo the
offending node. -/
def compressionSection (yaml : Yaml) :
    Except String (Option IntermediateCompression) :=
  match indexStr yaml "compression" with
  | .hash compression =>
    match parseCompression compression with
    | .error e => .error e
    | .ok c => .ok (some c)
  | .null => .ok none
  | .badValue => .ok none
  | _ => .error "\x27compression\x27 must be an object"

/-- The translator on the root node (lines 51 to 110 of the source):
the remoteMachine section first, then the compression section, the
first error aborting the whole translation. -/
def parse_config_from_yaml (yaml : Yaml) : Except String IntermediateConfig :=
  match remoteMachineSection yaml with
  | .error e => .error e
  | .ok remote_machine =>
    match compressionSection yaml with
    | .error e => .error e
    | .ok compression => .ok ⟨remote_machine, compression⟩

/-- parse_config_from_str (lines 45 to 111 of the source), parameterized
by the result of the external YamlLoader on the input text: a loader
error (its Debug rendering pre-applied) is wrapped as a YAML parsing
error; on success the code indexes document 0 of the returned vector
without a bounds check, so an empty vector panics, modelled as none;
otherwise the translator runs on the first document only. -/
def parse_config_from_str (loaderResult : Except String (List Yaml)) :
    Option (Except String IntermediateConfig) :=
  match loaderResult with
  | .error e => some (.error ("YAML parsing error " ++ e))
  | .ok content =>
    match content with
    | [] => none
    | doc :: _ => some (parse_config_from_yaml doc)

/-- The outcome of opening and reading the config file, an external
collaborator of from_file: the open can fail, the read of the opened
file can fail (the source then panics via unwrap_or_else), or the full
content is obtained and handed to the loader, whose result stands in
for the content here. -/
inductive FileRead (α : Type) where
  | openError
  | readPanic
  | content (c : α)
deriving DecidableEq, Repr

/-- IntermediateConfig::from_file (lines 27 to 42 of the source): an
open failure is reported as Could not open config file, a read failure
panics, and a parse or validation failure is wrapped with the
Error during parsing config file context line; a successful parse is
passed through untouched. -/
def from_file (path : String) (file : FileRead (Except String (List Yaml))) :
    Option (Except String IntermediateConfig) :=
  match file with
  | .openError => some (.error ("Could not open config file \x27" ++ path ++ "\x27"))
  | .readPanic => none
  | .content loaderResult =>
    match parse_config_from_str loaderResult with
    | none => none
    | some (.error message) =>
      some (.error ("Error during parsing config file \x27" ++ path ++ "\x27\n" ++ message))
    | some (.ok config) => some (.ok config)

/-- Is the node a hash. -/
def Yaml.isHash : Yaml → Bool
  | .hash _ => true
  | _ => false

/-- Is the node the explicit null. -/
def Yaml.isNull : Yaml → Bool
  | .null => true
  | _ => false

/-- Is the node the badValue marker. -/
def Yaml.isBadValue : Yaml → Bool
  | .badValue => true
  | _ => false

/-- Is the node a string. -/
def Yaml.isString : Yaml → Bool
  | .string _ => true
  | _ => false

/-- Is the node null or badValue, the two kinds the section matches send
to none. -/
def Yaml.isNullOrBad : Yaml → Bool
  | .null => true
  | .badValue => true
  | _ => false

/-- A node that the compression sub-field block rejects: an out-of-range
integer or any kind other than integer, null and badValue. -/
def invalidCompressionValue : Yaml → Bool
  | .integer i => decide (i < 1 ∨ 9 < i)
  | .null => false
  | .badValue => false
  | _ => true

/-- Claim C1: in a compression mapping, an integer n with 1 <= n <= 9
under local or remote lands as some n in that field, the other field
being none when its key is absent; an integer outside 1 to 9 under
local makes the translation of the section fail with the message
naming compression.local and echoing n, and likewise for remote once
the local field validated; values are never clamped. -/
theorem compression_integer_fields (entries : List (Yaml × Yaml)) (n : Int) :
    (hashGetStr entries "local" = some (.integer n) → hashGetStr entries "remote" = none →
      1 ≤ n → n ≤ 9 → parseCompression entries = .ok ⟨some n, none⟩)
  ∧ (hashGetStr entries "remote" = some (.integer n) → hashGetStr entries "local" = none →
      1 ≤ n → n ≤ 9 → parseCompression entries = .ok ⟨none, some n⟩)
  ∧ (hashGetStr entries "local" = some (.integer n) → (n < 1 ∨ 9 < n) →
      parseCompression entries = .error ("\x27compression.local\x27 must be a positive integer from 1 to 9, but was " ++ toString n))
  ∧ (∀ v : Option Int, hashGetStr entries "remote" = some (.integer n) → (n < 1 ∨ 9 < n) →
      compressionField "local" (hashGetStr entries "local") = .ok v →
      parseCompression entries = .error ("\x27compression.remote\x27 must be a positive integer from 1 to 9, but was " ++ toString n)) := by
  refine ⟨?_, ?_, ?_, ?_⟩
  · intro h1 h2 hlo hhi
    have hcond : n ≥ 1 ∧ n ≤ 9 := ⟨hlo, hhi⟩
    simp [parseCompression, h1, h2, compressionField, hcond]
  · intro h1 h2 hlo hhi
    have hcond : n ≥ 1 ∧ n ≤ 9 := ⟨hlo, hhi⟩
    simp [parseCompression, h1, h2, compressionField, hcond]
  · intro h1 hout
    have hcond : ¬(n ≥ 1 ∧ n ≤ 9) := by omega
    simp [parseCompression, h1, compressionField, hcond]
  · intro v h1 hout hok
    have hcond : ¬(n ≥ 1 ∧ n ≤ 9) := by omega
    simp only [parseCompression]
    rw [hok]
    simp [compressionField, h1, hcond]

/-- Witness for C1 at compression local 5 with remote absent. -/
theorem compression_integer_fields_witness :
    parseCompression [(.string "local", .integer 5)] = .ok ⟨some 5, none⟩ :=
  (compression_integer_fields [(.string "local", .integer 5)] 5).1 rfl rfl (by decide) (by decide)

/-- Claim C2: in a remoteMachine mapping, an absent host key gives host
none, an explicit null host gives host none, a string host is copied
verbatim into some, and any other node kind under host fails the whole
translation with the message remoteMachine.host must be a string. -/
theorem remote_machine_host_rules (entries : List (Yaml × Yaml)) (s : String) (v : Yaml) :
    (hashGetStr entries "host" = none → parseRemoteMachine entries = .ok ⟨none⟩)
  ∧ (hashGetStr entries "host" = some .null → parseRemoteMachine entries = .ok ⟨none⟩)
  ∧ (hashGetStr entries "host" = some (.string s) → parseRemoteMachine entries = .ok ⟨some s⟩)
  ∧ (∀ yaml : Yaml, indexStr yaml "remoteMachine" = .hash entries →
      hashGetStr entries "host" = some v → v.isString = false → v.isNull = false →
      parse_config_from_yaml yaml = .error "remoteMachine.host must be a string") := by
  refine ⟨?_, ?_, ?_, ?_⟩
  · intro h1; simp [parseRemoteMachine, h1]
  · intro h1; simp [parseRemoteMachine, h1]
  · intro h1; simp [parseRemoteMachine, h1]
  · intro yaml hidx hhost hs hn
    cases v <;>
      simp_all [parse_config_from_yaml, remoteMachineSection, parseRemoteMachine,
        Yaml.isString, Yaml.isNull]

/-- Witness for C2: an integer under host is rejected. -/
theorem remote_machine_host_rules_witness :
    parse_config_from_yaml (.hash [(.string "remoteMachine", .hash [(.string "host", .integer 1)])])
      = .error "remoteMachine.host must be a string" :=
  (remote_machine_host_rules [(.string "host", .integer 1)] "" (.integer 1)).2.2.2
    (.hash [(.string "remoteMachine", .hash [(.string "host", .integer 1)])]) rfl rfl rfl rfl

/-- Claim C3: a remoteMachine value that is neither a mapping nor null
nor badValue fails the translation with the shape message echoing the
Debug rendering of the node, while a compression value of such a kind,
reached once the remoteMachine section validated, fails with the bare
shape message that echoes nothing; the asymmetry is preserved. -/
theorem section_shape_errors (yaml node : Yaml) :
    (indexStr yaml "remoteMachine" = node → node.isHash = false → node.isNull = false →
      node.isBadValue = false →
      parse_config_from_yaml yaml = .error ("\x27remoteMachine\x27 must be an object, but was " ++ debugRender 0 node))
  ∧ (∀ rm : Option IntermediateRemoteMachine, remoteMachineSection yaml = .ok rm →
      indexStr yaml "compression" = node → node.isHash = false → node.isNull = false →
      node.isBadValue = false →
      parse_config_from_yaml yaml = .error "\x27compression\x27 must be an object") := by
  constructor
  · intro hidx h1 h2 h3
    cases node <;>
      simp_all [parse_config_from_yaml, remoteMachineSection,
        Yaml.isHash, Yaml.isNull, Yaml.isBadValue]
  · intro rm hrm hidx h1 h2 h3
    cases node <;>
      simp_all [parse_config_from_yaml, compressionSection,
        Yaml.isHash, Yaml.isNull, Yaml.isBadValue]

/-- Witness for C3: a boolean under remoteMachine is a shape error that
echoes the node. -/
theorem section_shape_errors_witness :
    parse_config_from_yaml (.hash [(.string "remoteMachine", .boolean true)])
      = .error ("\x27remoteMachine\x27 must be an object, but was " ++ debugRender 0 (.boolean true)) :=
  (section_shape_errors (.hash [(.string "remoteMachine", .boolean true)]) (.boolean true)).1
    rfl rfl rfl rfl

/-- Claim C4: the remoteMachine section is validated before the
compression section and the first failure is returned as the sole
error: when both sections are invalid, the result is the remoteMachine
error. -/
theorem sections_validated_in_order (yaml : Yaml) (e e₂ : String) :
    remoteMachineSection yaml = .error e → compressionSection yaml = .error e₂ →
    parse_config_from_yaml yaml = .error e := by
  intro h1 _
  simp [parse_config_from_yaml, h1]

/-- Witness for C4: both sections scalars; the remoteMachine error is
the one returned. -/
theorem sections_validated_in_order_witness :
    parse_config_from_yaml (.hash [(.string "remoteMachine", .integer 1), (.string "compression", .integer 2)])
      = .error ("\x27remoteMachine\x27 must be an object, but was " ++ debugRender 0 (.integer 1)) :=
  sections_validated_in_order
    (.hash [(.string "remoteMachine", .integer 1), (.string "compression", .integer 2)])
    ("\x27remoteMachine\x27 must be an object, but was " ++ debugRender 0 (.integer 1))
    "\x27compression\x27 must be an object" rfl rfl

/-- Claim C5, counterexample: a badValue under remoteMachine.host is
not treated like null; the translation fails with the host type error
instead of succeeding with host none. -/
theorem badvalue_host_counterexample :
    parse_config_from_yaml (.hash [(.string "remoteMachine", .hash [(.string "host", .badValue)])])
      = .error "remoteMachine.host must be a string"
  ∧ parse_config_from_yaml (.hash [(.string "remoteMachine", .hash [(.string "host", .badValue)])])
      ≠ .ok ⟨some ⟨none⟩, none⟩ := by
  refine ⟨rfl, fun h => ?_⟩
  have hrfl : parse_config_from_yaml
      (.hash [(.string "remoteMachine", .hash [(.string "host", .badValue)])])
      = Except.error "remoteMachine.host must be a string" := rfl
  rw [hrfl] at h
  exact Except.noConfusion h

/-- Claim C5 amended: badValue is treated like null for the two section
values and for the compression local and remote sub-fields, all of
which become none; but a badValue under remoteMachine.host falls into
the catch-all arm and the translation fails with the message
remoteMachine.host must be a string. -/
theorem badvalue_treatment (entries : List (Yaml × Yaml)) :
    (hashGetStr entries "host" = some .badValue →
      parseRemoteMachine entries = .error "remoteMachine.host must be a string")
  ∧ (hashGetStr entries "local" = some .badValue →
      compressionField "local" (hashGetStr entries "local") = .ok none)
  ∧ (hashGetStr entries "remote" = some .badValue →
      compressionField "remote" (hashGetStr entries "remote") = .ok none)
  ∧ (∀ yaml : Yaml, indexStr yaml "remoteMachine" = .badValue →
      remoteMachineSection yaml = .ok none)
  ∧ (∀ yaml : Yaml, indexStr yaml "compression" = .badValue →
      compressionSection yaml = .ok none) := by
  refine ⟨?_, ?_, ?_, ?_, ?_⟩
  · intro h1; simp [parseRemoteMachine, h1]
  · intro h1; simp [compressionField, h1]
  · intro h1; simp [compressionField, h1]
  · intro yaml h1; simp [remoteMachineSection, h1]
  · intro yaml h1; simp [compressionSection, h1]

/-- Witness for the amended C5 at a host bound to badValue. -/
theorem badvalue_treatment_witness :
    parseRemoteMachine [(.string "host", .badValue)]
      = .error "remoteMachine.host must be a string" :=
  (badvalue_treatment [(.string "host", .badValue)]).1 rfl

/-- A node the sections send to none is null or badValue. -/
theorem isNullOrBad_cases (y : Yaml) (h : y.isNullOrBad = true) :
    y = .null ∨ y = .badValue := by
  cases y <;> simp_all [Yaml.isNullOrBad]

/-- Claim C6: when both top-level section keys are absent or bound to
null or badValue, the translation succeeds with both fields none and no
sub-fields synthesized. -/
theorem absent_sections_default (yaml : Yaml) :
    (indexStr yaml "remoteMachine").isNullOrBad = true →
    (indexStr yaml "compression").isNullOrBad = true →
    parse_config_from_yaml yaml = .ok ⟨none, none⟩ := by
  intro h1 h2
  rcases isNullOrBad_cases _ h1 with hA | hA <;>
    rcases isNullOrBad_cases _ h2 with hB | hB <;>
      simp [parse_config_from_yaml, remoteMachineSection, compressionSection, hA, hB]

/-- Witness for C6 at the empty mapping, where both keys are absent. -/
theorem absent_sections_default_witness :
    parse_config_from_yaml (.hash []) = .ok ⟨none, none⟩ :=
  absent_sections_default (.hash []) rfl rfl

/-- Claim C7: from_file produces exactly two error message templates:
the open failure names the path, and a parse or validation failure
wraps the underlying message after a context line naming the path and
a newline; a successful parse is passed through without further
validation. -/
theorem from_file_error_templates (path : String)
    (file : FileRead (Except String (List Yaml))) :
    (from_file path .openError
      = some (.error ("Could not open config file \x27" ++ path ++ "\x27")))
  ∧ (∀ (lr : Except String (List Yaml)) (m : String),
      parse_config_from_str lr = some (.error m) →
      from_file path (.content lr)
        = some (.error ("Error during parsing config file \x27" ++ path ++ "\x27\n" ++ m)))
  ∧ (∀ (lr : Except String (List Yaml)) (c : IntermediateConfig),
      parse_config_from_str lr = some (.ok c) →
      from_file path (.content lr) = some (.ok c))
  ∧ (∀ m : String, from_file path file = some (.error m) →
      m = "Could not open config file \x27" ++ path ++ "\x27" ∨
      ∃ u : String, m = "Error during parsing config file \x27" ++ path ++ "\x27\n" ++ u) := by
  refine ⟨rfl, ?_, ?_, ?_⟩
  · intro lr m h
    simp only [from_file]
    rw [h]
  · intro lr c h
    simp only [from_file]
    rw [h]
  · intro m h
    cases file with
    | openError =>
      simp [from_file] at h
      exact Or.inl h.symm
    | readPanic => simp [from_file] at h
    | content lr =>
      simp only [from_file] at h
      rcases hp : parse_config_from_str lr with _ | r
      · rw [hp] at h
        simp at h
      · rw [hp] at h
        cases r with
        | error msg =>
          simp at h
          exact Or.inr ⟨msg, h.symm⟩
        | ok c =>
          simp at h

/-- Witness for C7: a loader error is wrapped with both context
prefixes. -/
theorem from_file_error_templates_witness :
    from_file "mainframer.yml" (.content (.error "boom"))
      = some (.error "Error during parsing config file \x27mainframer.yml\x27\nYAML parsing error boom") :=
  (from_file_error_templates "mainframer.yml" (.content (.error "boom"))).2.1
    (.error "boom") "YAML parsing error boom" rfl

/-- Claim C8: translation is a pure function of the input tree; equal
trees give equal results, and running the string-level entry point
twice on the same loader outcome gives the same result. -/
theorem translation_deterministic (y₁ y₂ : Yaml) (lr : Except String (List Yaml)) :
    (y₁ = y₂ → parse_config_from_yaml y₁ = parse_config_from_yaml y₂)
  ∧ parse_config_from_str lr = parse_config_from_str lr :=
  ⟨fun h => h ▸ rfl, rfl⟩

/-- Witness for C8 at the null document. -/
theorem translation_deterministic_witness :
    parse_config_from_yaml .null = parse_config_from_yaml .null :=
  (translation_deterministic .null .null (.ok [])).1 rfl

/-- Claim C9: the string-level entry point consults only the first
document of the loader output; when the loader yields zero documents,
as it does for the empty string, the unchecked index of document zero
panics, modelled as none, instead of returning an error value. -/
theorem first_document_only (doc : Yaml) (rest : List Yaml) :
    parse_config_from_str (.ok []) = none
  ∧ parse_config_from_str (.ok (doc :: rest)) = some (parse_config_from_yaml doc) :=
  ⟨rfl, rfl⟩

/-- Claim C10: inside a compression mapping the local sub-key is
validated before the remote one: when both hold rejected values, the
returned error is the local error, whose message names
compression.local. -/
theorem compression_local_validated_first (entries : List (Yaml × Yaml))
    (v w : Yaml) (e : String) :
    hashGetStr entries "local" = some v → invalidCompressionValue v = true →
    hashGetStr entries "remote" = some w → invalidCompressionValue w = true →
    compressionField "local" (some v) = .error e →
    parseCompression entries = .error e
    ∧ ∃ rendered : String,
        e = "\x27compression.local\x27 must be a positive integer from 1 to 9, but was " ++ rendered := by
  intro h1 hv h2 hw he
  constructor
  · simp only [parseCompression, h1]
    rw [he]
  · cases v with
    | integer i =>
      have hcond : ¬(i ≥ 1 ∧ i ≤ 9) := by
        simp [invalidCompressionValue] at hv
        omega
      simp [compressionField, hcond] at he
      exact ⟨toString i, he.symm⟩
    | null => simp [invalidCompressionValue] at hv
    | badValue => simp [invalidCompressionValue] at hv
    | real s =>
      simp [compressionField] at he
      exact ⟨debugRender 0 (.real s), he.symm⟩
    | string s =>
      simp [compressionField] at he
      exact ⟨debugRender 0 (.string s), he.symm⟩
    | boolean b =>
      simp [compressionField] at he
      exact ⟨debugRender 0 (.boolean b), he.symm⟩
    | array xs =>
      simp [compressionField] at he
      exact ⟨debugRender 0 (.array xs), he.symm⟩
    | hash kvs =>
      simp [compressionField] at he
      exact ⟨debugRender 0 (.hash kvs), he.symm⟩
    | aliasNode a =>
      simp [compressionField] at he
      exact ⟨debugRender 0 (.aliasNode a), he.symm⟩

/-- Witness for C10: local 0 and remote of a wrong kind; the local
range error is the one returned. -/
theorem compression_local_validated_first_witness :
    parseCompression [(.string "local", .integer 0), (.string "remote", .string "x")]
      = .error "\x27compression.local\x27 must be a positive integer from 1 to 9, but was 0"
    ∧ ∃ rendered : String,
        "\x27compression.local\x27 must be a positive integer from 1 to 9, but was 0"
          = "\x27compression.local\x27 must be a positive integer from 1 to 9, but was " ++ rendered :=
  compression_local_validated_first
    [(.string "local", .integer 0), (.string "remote", .string "x")]
    (.integer 0) (.string "x")
    "\x27compression.local\x27 must be a positive integer from 1 to 9, but was 0"
    rfl rfl rfl rfl rfl

end Mainframer
